import Mathlib

/-!
Verification of the Balluff mvIMPACT acquisition example scripts.

The three scripts share one pipeline: prime a fixed-depth request queue,
wait for completed requests in a loop guarded by a stop condition, validate
the delivered frame, convert 16-bit data to 8 bit, hand the result to a
sink (single images, a video file, or a vertically stitched image), and
release the request slot.  The definitions below are shallow embeddings of
the relevant functions; machine buffers are lists of natural numbers
(bytes), and the floating-point rescale is modelled over the rationals,
where the scale factor 255/65535 is exact.
-/

/-- A raw frame as delivered by the acquisition driver: the declared
dimensions together with the raw byte buffer.  The byte count reported by
`imageSize` is the length of `data`. -/
structure Frame where
  height : Nat
  width : Nat
  channels : Nat
  bitDepth : Nat
  data : List Nat
deriving Repr, DecidableEq

/-- Bytes per sample for a declared channel bit depth, matching the dtype
choice `np.uint16 if bit_depth > 8 else np.uint8` in the blockscan script. -/
def bytesPerSample (bitDepth : Nat) : Nat := if bitDepth > 8 then 2 else 1

/-- Reinterpret a byte list as little-endian 16-bit samples, dropping a
trailing odd byte (the error case is handled by `frombufferU16`). -/
def bytesToU16 : List Nat → List Nat
  | b0 :: b1 :: rest => (b0 + 256 * b1) :: bytesToU16 rest
  | _ => []

/-- Model of `np.frombuffer(cbuf, dtype=np.uint16)`: numpy raises a
ValueError when the buffer length is not a multiple of the item size. -/
def frombufferU16 (bytes : List Nat) : Except String (List Nat) :=
  if bytes.length % 2 = 0 then Except.ok (bytesToU16 bytes)
  else Except.error ("buffer size must be a multiple of element size")

/-- Model of `cv2.convertScaleAbs` on one sample with `alpha = 255.0/65535.0`
and no beta: scale, take the absolute value, round to the nearest integer,
and saturate into the 8-bit range.  For 16-bit samples the scaled value
never lands exactly on a half integer, so the rounding mode is immaterial. -/
def cvtScaleAbsSample (v : Nat) : Nat :=
  (min 255 (max 0 (round |(v : ℚ) * (255 / 65535)|))).toNat

/-- The per-sample rescale exactly as the specification words it:
`clamp(round(in * 255.0 / 65535.0), 0, 255)`. -/
def specRescale (v : Nat) : Nat :=
  (max 0 (min 255 (round ((v : ℚ) * 255 / 65535)))).toNat

/-- Outcome of `convert_frame` in the record-video script: a converted
image (flat, row major, channel interleaved), a rejection that was reported
through `handle_unsupported_format`, or a Python exception escaping the
function (numpy ValueError from `np.frombuffer`). -/
inductive ConvertResult where
  | unsupported (info : String)
  | image (pixels : List Nat)
  | raised (msg : String)
deriving Repr, DecidableEq

/-- `convert_frame` from `example_balluff_areascan_record_video.py`
(lines 55-78): reject unless 3 channels and 16-bit depth, reinterpret the
buffer as uint16, reject when the element count disagrees with
`height*width*channels`, otherwise rescale every sample with
`cv2.convertScaleAbs(arr, alpha=255.0/65535.0)`.  The reshape to
`(height, width, channels)` preserves the flat element order, so the
output keeps the input sample order. -/
def convert_frame (f : Frame) : ConvertResult :=
  if f.channels ≠ 3 ∨ f.bitDepth ≠ 16 then
    ConvertResult.unsupported ("format mismatch")
  else
    match frombufferU16 f.data with
    | Except.error e => ConvertResult.raised e
    | Except.ok arr =>
      if arr.length ≠ f.height * f.width * f.channels then
        ConvertResult.unsupported ("Invalid array size")
      else
        ConvertResult.image (arr.map cvtScaleAbsSample)

/-- Outcome of `display_and_save_frame` in the areascan opencv script: the
saved image, a rejection (the function returns the diagnostic info string
to the caller), or an escaping numpy ValueError.  Unlike `convert_frame`,
this function casts the buffer before any format check, and folds the
size, channel and bit-depth checks into one condition. -/
inductive DisplayResult where
  | saved (pixels : List Nat)
  | rejected (info : String)
  | raised (msg : String)
deriving Repr, DecidableEq

/-- `display_and_save_frame` from `example_balluff_areascan_opencv.py`
(lines 73-106). -/
def display_and_save_frame (f : Frame) : DisplayResult :=
  match frombufferU16 f.data with
  | Except.error e => DisplayResult.raised e
  | Except.ok arr =>
    if arr.length ≠ f.height * f.width * f.channels ∨ f.channels ≠ 3 ∨ f.bitDepth ≠ 16 then
      DisplayResult.rejected ("Image Info")
    else
      DisplayResult.saved (arr.map cvtScaleAbsSample)

/-- The terse notice printed for every rejection after the first one. -/
def terseMsg : String := "Skipped unsupported frame (not 16-bit / 3-channel)"

/-- Opening line of the verbose diagnostic. -/
def verboseHead : String := "Unsupported image format detected. "

/-- Remainder of the verbose diagnostic: format description and
configuration hint. -/
def verboseTail : String :=
  " This script only supports 16-bit, 3-channel RGB images. Please adjust the camera configuration: PixelFormat = BayerRG16. Check with Felip or Shuo for help."

/-- The two kinds of console output `handle_unsupported_format` can
produce: the verbose diagnostic (which embeds the frame info string) or
the terse skipped notice. -/
inductive Notice where
  | verbose (info : String)
  | terse
deriving Repr, DecidableEq

/-- The text each notice prints: the verbose diagnostic wraps the info
string in the format description and configuration hint; the terse notice
is the fixed skipped line. -/
def Notice.render : Notice → String
  | Notice.verbose info => verboseHead ++ info ++ verboseTail
  | Notice.terse => terseMsg

/-- `handle_unsupported_format` from both areascan scripts: prints the
verbose diagnostic and sets the warning flag on the first rejection,
prints the terse notice on later ones.  Returns the printed notice and
the updated flag. -/
def handle_unsupported_format (info : String) (flag : Bool) : Notice × Bool :=
  if flag = false then (Notice.verbose info, true) else (Notice.terse, flag)

/-- One acquisition session seen by the warning throttle: each event is
either an accepted frame (`none`, the flag is untouched) or a rejected
frame carrying its info string (`some info`).  Returns the printed
notices in order. -/
def sessionMessages : List (Option String) → Bool → List Notice
  | [], _ => []
  | none :: rest, flag => sessionMessages rest flag
  | some info :: rest, flag =>
    (handle_unsupported_format info flag).1 ::
      sessionMessages rest (handle_unsupported_format info flag).2

/-- The request-lifecycle skeleton of `capture_frames`
(`example_balluff_areascan_opencv.py` lines 121-143) and `capture_blocks`
(`example_balluff_blockscan.py` lines 81-100).  Each element of the input
list is one loop iteration: `none` when `imageRequestWaitFor` returned an
invalid request number (timeout or error, the iteration just continues),
`some r` when it returned request slot `r`.  The state carries
`previous_request` and the list of slots passed to `unlock` so far, in
order.  On a successful wait the previous slot is unlocked and the current
one becomes `previous_request`; neither loop unlocks the held slot after
the loop ends. -/
def capture_frames_loop :
    List (Option Nat) → Option Nat → List Nat → Option Nat × List Nat
  | [], prev, unl => (prev, unl)
  | none :: rest, prev, unl => capture_frames_loop rest prev unl
  | some r :: rest, prev, unl => capture_frames_loop rest (some r) (unl ++ prev.toList)

/-- The request slots returned by the successful waits of a run, in order. -/
def successfulWaits : List (Option Nat) → List Nat
  | [] => []
  | none :: rest => successfulWaits rest
  | some r :: rest => r :: successfulWaits rest

/-- The request-queue depth used by the record-video script. -/
def MAX_REQUESTS : Nat := 20

/-- The priming loop of `capture_and_buffer`
(`example_balluff_areascan_record_video.py` lines 88-96): attempt
`attempts` calls to `imageRequestSingle`, count the successes, report each
failure without aborting. -/
def primeQueued (submitOk : Nat → Bool) (attempts : Nat) : Nat :=
  ((List.range attempts).filter (fun j => submitOk j)).length

/-- Effect of one iteration of the `capture_and_buffer` while-loop on the
number of outstanding submitted requests.  A wait can only return a
completed request while at least one is outstanding; on a successful wait
the completed slot is consumed (processed or rejected, then unlocked) and
exactly one replacement is submitted, which may itself fail (reported,
non-fatal).  On a timeout or wait error the iteration continues without
resubmitting. -/
def loopStep (outstanding : Nat) (waitOk resubmitOk : Bool) : Nat :=
  if waitOk && decide (0 < outstanding) then
    outstanding - 1 + (if resubmitOk then 1 else 0)
  else outstanding

/-- All values taken by the outstanding-request count along a run of the
acquisition loop, the initial value included. -/
def loopStates (outstanding : Nat) : List (Bool × Bool) → List Nat
  | [] => [outstanding]
  | e :: rest => outstanding :: loopStates (loopStep outstanding e.1 e.2) rest

/-- The post-loop video export of `capture_and_buffer`
(`example_balluff_areascan_record_video.py` lines 134-160): with no
captured frames, report and write nothing; otherwise compute
`duration = end_time - start_time` (wall-clock times sampled just before
and just after the acquisition loop), `effective_fps = len(frames)/duration`,
floor the rate at 1.0, and write the buffered frames in order.  Frames are
abstracted to identifiers; each request is a frame paired with its
arrival timestamp `time.time()`.  Returns the written file as
(frame rate, frame sequence), or `none` when nothing is written. -/
def finalizeVideo (requests : List (Nat × ℚ)) (startTime endTime : ℚ) :
    Option (ℚ × List Nat) :=
  match requests with
  | [] => none
  | _ :: _ =>
    let frames := requests.map Prod.fst
    let duration := endTime - startTime
    let effectiveFps : ℚ := (frames.length : ℚ) / duration
    let fps := max effectiveFps 1
    some (fps, frames)

/-- A concrete capture run for the video sink: two frames arriving at
times 1 and 2, inside an acquisition loop running from time 0 to time 4. -/
def cxRequests : List (Nat × ℚ) := [(0, 1), (1, 2)]

/-- One stitched block: a `(height, width, channels)` array, stored flat in
row-major order. -/
structure Block where
  height : Nat
  width : Nat
  channels : Nat
  data : List Nat
deriving Repr, DecidableEq

/-- Model of `np.vstack`: concatenation along the first axis, defined only
when all trailing dimensions agree (numpy raises otherwise). -/
def vstack : List Block → Option Block
  | [] => none
  | b :: rest =>
    if rest.all (fun x => x.width == b.width && x.channels == b.channels) then
      some ⟨((b :: rest).map Block.height).sum, b.width, b.channels,
            ((b :: rest).map Block.data).flatten⟩
    else none

/-- Outcome of the stitch finalisation. -/
inductive StitchResult where
  | savedImage (img : Block)
  | nothingToSave
  | raised (msg : String)
deriving Repr, DecidableEq

/-- The post-loop stitch export of `capture_blocks`
(`example_balluff_blockscan.py` lines 105-111): with accumulated blocks,
`np.vstack` them and write the result; with none, print that there is
nothing to save and write no file. -/
def stitchFinalize (blocks : List Block) : StitchResult :=
  if blocks.isEmpty then StitchResult.nothingToSave
  else
    match vstack blocks with
    | some img => StitchResult.savedImage img
    | none => StitchResult.raised ("array dimensions mismatch")

/-- `extract_block` from `example_balluff_blockscan.py` (lines 48-65):
choose the dtype from the declared bit depth (`uint16` when above 8 bits,
`uint8` otherwise), reinterpret the buffer, skip the frame (`none`) when
the element count disagrees with `height*width*channels`, otherwise
reshape and rescale only 16-bit data; 8-bit data is returned unchanged.
The `Except` error case is the numpy ValueError from an odd-length
buffer cast to uint16. -/
def extract_block (f : Frame) : Except String (Option Block) :=
  match (if f.bitDepth > 8 then frombufferU16 f.data else Except.ok f.data) with
  | Except.error e => Except.error e
  | Except.ok arr =>
    if arr.length ≠ f.height * f.width * f.channels then Except.ok none
    else
      Except.ok (some ⟨f.height, f.width, (if f.channels > 1 then f.channels else 1),
        if f.bitDepth > 8 then arr.map cvtScaleAbsSample else arr⟩)

/-- The per-completion body of `capture_blocks` (lines 87-90): extract the
block and append it to the stitch sequence when extraction succeeds. -/
def processCompletedBlock (acc : List Block) (f : Frame) : Except String (List Block) :=
  match extract_block f with
  | Except.error e => Except.error e
  | Except.ok none => Except.ok acc
  | Except.ok (some b) => Except.ok (acc ++ [b])

/-- Control skeleton of the stop-guarded acquisition loops
(`capture_and_buffer` lines 110-128, `capture_blocks` lines 81-100):
starting at guard index `k` with `fuel` remaining iterations, check the
stop flag; when it is set, leave the loop and finalize the sink once;
otherwise issue one wait call (counted), process a frame only when the
wait returned a valid request (`waitOk`), and loop.  A timeout is not an
error: the iteration just returns to the guard.  Returns
(wait calls, processed frames, finalize calls). -/
def captureLoop (stopFlag waitOk : Nat → Bool) : Nat → Nat → Nat × Nat × Nat
  | 0, _ => (0, 0, 0)
  | fuel + 1, k =>
    if stopFlag k then (0, 0, 1)
    else
      ((captureLoop stopFlag waitOk fuel (k + 1)).1 + 1,
       (captureLoop stopFlag waitOk fuel (k + 1)).2.1 + (if waitOk k then 1 else 0),
       (captureLoop stopFlag waitOk fuel (k + 1)).2.2)

/-- Number of valid wait results among `count` consecutive guard indices
starting at `k`. -/
def countValidFrom (waitOk : Nat → Bool) : Nat → Nat → Nat
  | _, 0 => 0
  | k, count + 1 => (if waitOk k then 1 else 0) + countValidFrom waitOk (k + 1) count

/-- Value of a single-writer boolean store at time `t`, given the
chronologically ordered list of (time, value) writes; the store starts
out `false`. -/
def flagAt (writes : List (Nat × Bool)) (t : Nat) : Bool :=
  (writes.filter (fun w => decide (w.1 ≤ t))).foldl (fun _ v => v.2) false

/-- The writes the program ever performs on the stop flag: the user-input
thread (`wait_for_enter` / `wait_for_user_to_stop`) stores `true` exactly
once, at some time `s`; no other statement assigns the flag after its
initialiser. -/
def programWrites (s : Nat) : List (Nat × Bool) := [(s, true)]

/-- The stop flag as observed by a guard evaluation at time `t`, when the
user-input thread sets it at time `s`. -/
def stop_recording (s t : Nat) : Bool := flagAt (programWrites s) t

theorem cvtScaleAbsSample_eq_specRescale (v : Nat) :
    cvtScaleAbsSample v = specRescale v := by
  unfold cvtScaleAbsSample specRescale
  rw [abs_of_nonneg, mul_div_assoc]
  · congr 1
    omega
  · positivity

theorem bytesToU16_length : ∀ l : List Nat, (bytesToU16 l).length = l.length / 2
  | [] => rfl
  | [_] => by simp [bytesToU16]
  | _ :: _ :: rest => by
    have ih := bytesToU16_length rest
    simp only [bytesToU16, List.length_cons]
    omega

/-- Claim C1: for every accepted frame declared 16-bit (3 channels, even
byte count, element count equal to height*width*channels), both conversion
functions produce the 8-bit image whose samples are exactly
`clamp(round(in * 255.0 / 65535.0), 0, 255)` of the corresponding input
samples, in the same row-major, channel-interleaved order. -/
theorem claim1_convert_rescale (f : Frame)
    (hch : f.channels = 3) (hbd : f.bitDepth = 16)
    (heven : f.data.length % 2 = 0)
    (hsize : (bytesToU16 f.data).length = f.height * f.width * f.channels) :
    convert_frame f = ConvertResult.image ((bytesToU16 f.data).map specRescale) ∧
    display_and_save_frame f = DisplayResult.saved ((bytesToU16 f.data).map specRescale) := by
  have hmap : (bytesToU16 f.data).map cvtScaleAbsSample = (bytesToU16 f.data).map specRescale :=
    List.map_congr_left (fun v _ => cvtScaleAbsSample_eq_specRescale v)
  constructor
  · unfold convert_frame frombufferU16
    rw [if_neg (by simp [hch, hbd]), if_pos heven]
    simp only [hsize, ne_eq, not_true_eq_false, if_false, hmap]
  · unfold display_and_save_frame frombufferU16
    rw [if_pos heven]
    simp only [hsize, hch, hbd, ne_eq, not_true_eq_false, false_or, if_false, hmap]

/-- Witness for claim C1 at a concrete 1x1, 3-channel, 16-bit frame whose
samples are 0, 65535 and 32768. -/
theorem claim1_convert_rescale_witness :
    convert_frame (Frame.mk 1 1 3 16 [0, 0, 255, 255, 0, 128]) =
      ConvertResult.image ((bytesToU16 [0, 0, 255, 255, 0, 128]).map specRescale) ∧
    display_and_save_frame (Frame.mk 1 1 3 16 [0, 0, 255, 255, 0, 128]) =
      DisplayResult.saved ((bytesToU16 [0, 0, 255, 255, 0, 128]).map specRescale) :=
  claim1_convert_rescale (Frame.mk 1 1 3 16 [0, 0, 255, 255, 0, 128]) rfl rfl
    (by decide) (by decide)

theorem sessionMessages_flagSet : ∀ events : List (Option String),
    sessionMessages events true = List.replicate (events.filterMap id).length Notice.terse
  | [] => rfl
  | none :: rest => by
    simp [sessionMessages, sessionMessages_flagSet rest]
  | some info :: rest => by
    simp [sessionMessages, handle_unsupported_format, sessionMessages_flagSet rest,
      List.replicate_succ]

/-- Claim C6: over any session (a sequence of accepted and rejected
frames processed with the warning flag starting `false`), the first
rejection produces the verbose diagnostic, every later rejection produces
only the terse notice, and the verbose diagnostic differs from the terse
notice, so the verbose diagnostic appears exactly once. -/
theorem claim6_warning_throttle (events : List (Option String))
    (hne : events.filterMap id ≠ []) :
    sessionMessages events false =
      Notice.verbose ((events.filterMap id).headI) ::
        List.replicate ((events.filterMap id).length - 1) Notice.terse ∧
    ∀ info, Notice.verbose info ≠ Notice.terse := by
  refine ⟨?_, fun info => by simp⟩
  induction events with
  | nil => exact absurd rfl hne
  | cons e rest ih =>
    cases e with
    | none =>
      simp only [List.filterMap_cons_none, sessionMessages] at hne ⊢
      exact ih hne
    | some info =>
      simp [List.filterMap_cons_some, sessionMessages, handle_unsupported_format,
        sessionMessages_flagSet rest]

/-- Witness for claim C6 on a session with three rejected frames (and one
accepted frame interleaved). -/
theorem claim6_warning_throttle_witness :
    sessionMessages [some ("f1"), none, some ("f2"), some ("f3")] false =
      Notice.verbose (([some ("f1"), none, some ("f2"), some ("f3")].filterMap id).headI) ::
        List.replicate
          (([some ("f1"), none, some ("f2"), some ("f3")].filterMap id).length - 1) Notice.terse ∧
    ∀ info, Notice.verbose info ≠ Notice.terse :=
  claim6_warning_throttle [some ("f1"), none, some ("f2"), some ("f3")] (by decide)

theorem capture_frames_loop_spec :
    ∀ (waits : List (Option Nat)) (prev : Option Nat) (unl : List Nat),
    capture_frames_loop waits prev unl =
      ((prev.toList ++ successfulWaits waits).getLast?,
       unl ++ (prev.toList ++ successfulWaits waits).dropLast)
  | [], prev, unl => by
    cases prev <;> simp [capture_frames_loop, successfulWaits]
  | none :: rest, prev, unl => by
    simpa [successfulWaits, capture_frames_loop] using capture_frames_loop_spec rest prev unl
  | some r :: rest, prev, unl => by
    have ih := capture_frames_loop_spec rest (some r) (unl ++ prev.toList)
    simp only [capture_frames_loop, successfulWaits, Option.toList_some] at ih ⊢
    rw [ih, Prod.mk.injEq]
    constructor
    · rw [List.getLast?_append_cons]
      rfl
    · rw [List.dropLast_append_cons, List.append_assoc]
      rfl

/-- Claim C2 (amended): in the areascan-opencv and blockscan loops, over
any sequence of wait outcomes, the slots passed to `unlock` are exactly
the successfully waited slots except the most recent one, in wait order
(so a slot is released only once a later wait has succeeded, and at most
one completed slot is held across iterations), and when the loop
terminates the most recent successfully waited slot is still held — the
code never unlocks it. -/
theorem claim2_release_discipline (waits : List (Option Nat)) :
    capture_frames_loop waits none [] =
      ((successfulWaits waits).getLast?, (successfulWaits waits).dropLast) := by
  simpa using capture_frames_loop_spec waits none []

/-- Claim C2 counterexample: after a two-iteration run whose waits return
slots 0 and 1, the loop terminates holding slot 1, and slot 1 is not in
the released list — the last held slot is never released, contradicting
the claim that on termination the last held slot is still released. -/
theorem claim2_counterexample :
    (capture_frames_loop [some 0, some 1] none []).1 = some 1 ∧
    1 ∉ (capture_frames_loop [some 0, some 1] none []).2 := by decide

theorem primeQueued_first_k (k : Nat) :
    ∀ n : Nat, primeQueued (fun j => decide (j < k)) n = min k n
  | 0 => by simp [primeQueued]
  | n + 1 => by
    have ih := primeQueued_first_k k n
    simp only [primeQueued, List.range_succ, List.filter_append, List.length_append] at ih ⊢
    by_cases h : n < k
    · simp only [List.filter_cons, decide_eq_true_eq, if_pos h, List.filter_nil]
      simp only [ih, List.length_cons, List.length_nil]
      omega
    · simp only [List.filter_cons, decide_eq_true_eq, if_neg h, List.filter_nil]
      simp only [ih, List.length_nil]
      omega

theorem loopStep_le (s : Nat) (w r : Bool) :
    s - 1 ≤ loopStep s w r ∧ loopStep s w r ≤ s := by
  unfold loopStep
  split
  · next h =>
    simp only [Bool.and_eq_true, decide_eq_true_eq] at h
    split <;> omega
  · omega

theorem loopStates_le : ∀ (events : List (Bool × Bool)) (s : Nat), s ≤ MAX_REQUESTS →
    ∀ x ∈ loopStates s events, x ≤ MAX_REQUESTS
  | [], s, hs, x, hx => by
    simp only [loopStates, List.mem_singleton] at hx
    omega
  | e :: rest, s, hs, x, hx => by
    simp only [loopStates, List.mem_cons] at hx
    rcases hx with rfl | hx
    · exact hs
    · exact loopStates_le rest _ (le_trans (loopStep_le s e.1 e.2).2 hs) x hx

/-- Claim C3: the outstanding-request count never exceeds the queue depth
`MAX_REQUESTS = 20`: priming with a device that succeeds on the first `k`
submissions and fails afterwards queues exactly `k` requests (failures are
reported, no exception escapes, the model is total); priming never queues
more requests than it attempts; each loop iteration consumes at most one
completion and resubmits at most one request (a resubmission failure only
lowers the count, it is non-fatal); and along any run starting at or below
the queue depth every intermediate outstanding count stays at or below
`MAX_REQUESTS`. -/
theorem claim3_queue_depth (k : Nat) (hk : k < MAX_REQUESTS) :
    primeQueued (fun j => decide (j < k)) MAX_REQUESTS = k ∧
    (∀ submitOk : Nat → Bool, ∀ attempts : Nat, primeQueued submitOk attempts ≤ attempts) ∧
    (∀ s : Nat, ∀ w r : Bool, s - 1 ≤ loopStep s w r ∧ loopStep s w r ≤ s) ∧
    (∀ events : List (Bool × Bool), ∀ s : Nat, s ≤ MAX_REQUESTS →
      ∀ x ∈ loopStates s events, x ≤ MAX_REQUESTS) := by
  refine ⟨?_, ?_, loopStep_le, fun events s hs => loopStates_le events s hs⟩
  · rw [primeQueued_first_k]
    omega
  · intro submitOk attempts
    calc primeQueued submitOk attempts ≤ (List.range attempts).length :=
          List.length_filter_le _ _
      _ = attempts := List.length_range attempts

/-- Witness for claim C3 with a device that fails after 3 of the 20
priming submissions. -/
theorem claim3_queue_depth_witness :
    primeQueued (fun j => decide (j < 3)) MAX_REQUESTS = 3 ∧
    (∀ submitOk : Nat → Bool, ∀ attempts : Nat, primeQueued submitOk attempts ≤ attempts) ∧
    (∀ s : Nat, ∀ w r : Bool, s - 1 ≤ loopStep s w r ∧ loopStep s w r ≤ s) ∧
    (∀ events : List (Bool × Bool), ∀ s : Nat, s ≤ MAX_REQUESTS →
      ∀ x ∈ loopStates s events, x ≤ MAX_REQUESTS) :=
  claim3_queue_depth 3 (by decide)

/-- Claim C4 counterexample: two frames arrive at timestamps 1 and 2
(so `lastTimestamp - firstTimestamp = 1`), while the loop runs from
wall-clock time 0 to 4.  The claim predicts a frame rate of
`max(2 / (2 - 1), 1) = 2`; the code writes the file at
`max(2 / (4 - 0), 1) = 1`, because it divides by the wall-clock duration
around the whole loop, not by the span of the frame timestamps (which it
records but never uses for the rate). -/
theorem claim4_counterexample :
    finalizeVideo cxRequests 0 4 = some (1, [0, 1]) ∧
    max ((cxRequests.length : ℚ) / (2 - 1)) 1 = 2 ∧
    (1 : ℚ) ≠ 2 := by
  refine ⟨?_, ?_, by norm_num⟩
  · show finalizeVideo [(0, 1), (1, 2)] 0 4 = some (1, [0, 1])
    unfold finalizeVideo
    norm_num
  · show max ((2 : ℚ) / (2 - 1)) 1 = 2
    norm_num

/-- Claim C4 (amended): when the video sink finalizes with n >= 1
accumulated frames, the encode frame rate is
`max(n / (endTime - startTime), 1.0)` where `startTime` and `endTime` are
the wall-clock times sampled just before and just after the acquisition
loop (not the first and last frame timestamps), the frames are written in
arrival order, and finalizing with zero accumulated frames reports that
nothing was captured and writes no file. -/
theorem claim4_video_fps (requests : List (Nat × ℚ)) (startTime endTime : ℚ)
    (hne : requests ≠ []) :
    finalizeVideo requests startTime endTime =
      some (max ((requests.length : ℚ) / (endTime - startTime)) 1,
        requests.map Prod.fst) ∧
    finalizeVideo [] startTime endTime = none := by
  refine ⟨?_, rfl⟩
  cases requests with
  | nil => exact absurd rfl hne
  | cons a rest => simp [finalizeVideo]

/-- Witness for the amended claim C4 at the concrete two-frame run. -/
theorem claim4_video_fps_witness :
    finalizeVideo cxRequests 0 4 =
      some (max ((cxRequests.length : ℚ) / (4 - 0)) 1, cxRequests.map Prod.fst) ∧
    finalizeVideo [] 0 4 = none :=
  claim4_video_fps cxRequests 0 4 (by decide)

/-- Claim C5 counterexample: a frame declared 1x1, 3 channels, 16-bit
whose buffer is 7 bytes long.  Its size disagrees with
`width*height*channels*bytesPerSample(bitDepth) = 6`, so the claim says it
is classified as a malformed frame, never reaches convert, and never
aborts the loop.  In fact `np.frombuffer` raises a ValueError (7 is not a
multiple of the 2-byte item size) in both conversion functions; neither
acquisition loop catches it, so the exception aborts the loop. -/
theorem claim5_counterexample :
    convert_frame (Frame.mk 1 1 3 16 [0, 0, 0, 0, 0, 0, 7]) =
      ConvertResult.raised ("buffer size must be a multiple of element size") ∧
    display_and_save_frame (Frame.mk 1 1 3 16 [0, 0, 0, 0, 0, 0, 7]) =
      DisplayResult.raised ("buffer size must be a multiple of element size") ∧
    (Frame.mk 1 1 3 16 [0, 0, 0, 0, 0, 0, 7]).data.length ≠
      1 * 1 * 3 * bytesPerSample 16 := by
  refine ⟨rfl, rfl, by decide⟩

/-- Claim C5 (amended): for a completed frame whose buffer size disagrees
with `width*height*channels*bytesPerSample(bitDepth)`, both scripts behave
as follows.  When the buffer length is a multiple of the 2-byte uint16
item size, the frame is rejected before any conversion and the loop
merely skips it: the record-video `convert_frame` reports a format
mismatch when channels or bit depth also disagree (that check runs first
there) and an invalid-size frame otherwise, while the opencv
`display_and_save_frame` rejects through its single combined check.  When
the buffer length is odd, `np.frombuffer` raises a ValueError that aborts
the loop: unconditionally in the opencv script, whose uint16 cast
precedes every check, and in the record-video script whenever the frame
passes the channels/bit-depth check. -/
theorem claim5_malformed_rejected (f : Frame)
    (hsize : f.data.length ≠ f.height * f.width * f.channels * bytesPerSample f.bitDepth) :
    ((f.channels = 3 → f.bitDepth = 16 → f.data.length % 2 = 0) →
      ∃ info, convert_frame f = ConvertResult.unsupported info) ∧
    (f.data.length % 2 = 0 →
      display_and_save_frame f = DisplayResult.rejected ("Image Info")) ∧
    (f.data.length % 2 ≠ 0 →
      display_and_save_frame f =
        DisplayResult.raised ("buffer size must be a multiple of element size")) ∧
    (f.channels = 3 → f.bitDepth = 16 → f.data.length % 2 ≠ 0 →
      convert_frame f =
        ConvertResult.raised ("buffer size must be a multiple of element size")) := by
  refine ⟨?_, ?_, ?_, ?_⟩
  · intro heven
    by_cases hc : f.channels = 3
    · by_cases hb : f.bitDepth = 16
      · refine ⟨"Invalid array size", ?_⟩
        have he := heven hc hb
        have hbps : bytesPerSample f.bitDepth = 2 := by
          simp [bytesPerSample, hb]
        rw [hbps] at hsize
        have h1 : (bytesToU16 f.data).length ≠ f.height * f.width * f.channels := by
          rw [bytesToU16_length]
          omega
        unfold convert_frame frombufferU16
        rw [if_neg (by simp [hc, hb]), if_pos he]
        exact if_pos h1
      · exact ⟨"format mismatch", by unfold convert_frame; rw [if_pos (Or.inr hb)]⟩
    · exact ⟨"format mismatch", by unfold convert_frame; rw [if_pos (Or.inl hc)]⟩
  · intro he
    have hcond : (bytesToU16 f.data).length ≠ f.height * f.width * f.channels ∨
        f.channels ≠ 3 ∨ f.bitDepth ≠ 16 := by
      by_cases hb : f.bitDepth = 16
      · have hbps : bytesPerSample f.bitDepth = 2 := by
          simp [bytesPerSample, hb]
        rw [hbps] at hsize
        refine Or.inl ?_
        rw [bytesToU16_length]
        omega
      · exact Or.inr (Or.inr hb)
    unfold display_and_save_frame frombufferU16
    rw [if_pos he]
    exact if_pos hcond
  · intro hodd
    unfold display_and_save_frame frombufferU16
    rw [if_neg hodd]
  · intro hc hb hodd
    unfold convert_frame frombufferU16
    rw [if_neg (by simp [hc, hb]), if_neg hodd]

/-- Witness for the amended claim C5: a 1x1, 3-channel, 16-bit frame with
a 4-byte buffer (6 bytes expected) is rejected by both scripts without a
conversion and without an exception, and the odd-length conjuncts hold
vacuously for it. -/
theorem claim5_malformed_rejected_witness :
    (((Frame.mk 1 1 3 16 [0, 0, 0, 0]).channels = 3 →
        (Frame.mk 1 1 3 16 [0, 0, 0, 0]).bitDepth = 16 →
        (Frame.mk 1 1 3 16 [0, 0, 0, 0]).data.length % 2 = 0) →
      ∃ info, convert_frame (Frame.mk 1 1 3 16 [0, 0, 0, 0]) =
        ConvertResult.unsupported info) ∧
    ((Frame.mk 1 1 3 16 [0, 0, 0, 0]).data.length % 2 = 0 →
      display_and_save_frame (Frame.mk 1 1 3 16 [0, 0, 0, 0]) =
        DisplayResult.rejected ("Image Info")) ∧
    ((Frame.mk 1 1 3 16 [0, 0, 0, 0]).data.length % 2 ≠ 0 →
      display_and_save_frame (Frame.mk 1 1 3 16 [0, 0, 0, 0]) =
        DisplayResult.raised ("buffer size must be a multiple of element size")) ∧
    ((Frame.mk 1 1 3 16 [0, 0, 0, 0]).channels = 3 →
        (Frame.mk 1 1 3 16 [0, 0, 0, 0]).bitDepth = 16 →
        (Frame.mk 1 1 3 16 [0, 0, 0, 0]).data.length % 2 ≠ 0 →
      convert_frame (Frame.mk 1 1 3 16 [0, 0, 0, 0]) =
        ConvertResult.raised ("buffer size must be a multiple of element size")) :=
  claim5_malformed_rejected (Frame.mk 1 1 3 16 [0, 0, 0, 0]) (by decide)

/-- Claim C7: when the stitch sink finalizes with at least one accumulated
block, all blocks sharing a width and channel count (the shape `np.vstack`
requires), it writes exactly one image: the vertical concatenation of the
blocks in arrival order, whose height is the sum of the block heights; and
finalizing with zero blocks reports nothing to save and writes no file. -/
theorem claim7_stitch (blocks : List Block) (w c : Nat) (hne : blocks ≠ [])
    (huni : ∀ b ∈ blocks, b.width = w ∧ b.channels = c) :
    stitchFinalize blocks =
      StitchResult.savedImage
        ⟨(blocks.map Block.height).sum, w, c, (blocks.map Block.data).flatten⟩ ∧
    stitchFinalize [] = StitchResult.nothingToSave := by
  refine ⟨?_, rfl⟩
  cases blocks with
  | nil => exact absurd rfl hne
  | cons b rest =>
    have hb := huni b (List.mem_cons_self b rest)
    have hall : rest.all (fun x => x.width == b.width && x.channels == b.channels) = true := by
      rw [List.all_eq_true]
      intro x hx
      have hx2 := huni x (List.mem_cons_of_mem b hx)
      simp [hx2.1, hx2.2, hb.1, hb.2]
    have hv : vstack (b :: rest) =
        some ⟨((b :: rest).map Block.height).sum, b.width, b.channels,
          ((b :: rest).map Block.data).flatten⟩ := by
      unfold vstack
      exact if_pos hall
    unfold stitchFinalize
    rw [if_neg (by simp), hv, hb.1, hb.2]

/-- Witness for claim C7: three one-column blocks of height 2 stitch into
one image of height 6, in arrival order. -/
theorem claim7_stitch_witness :
    stitchFinalize [Block.mk 2 1 1 [1, 2], Block.mk 2 1 1 [3, 4], Block.mk 2 1 1 [5, 6]] =
      StitchResult.savedImage
        ⟨([Block.mk 2 1 1 [1, 2], Block.mk 2 1 1 [3, 4], Block.mk 2 1 1 [5, 6]].map
            Block.height).sum, 1, 1,
          ([Block.mk 2 1 1 [1, 2], Block.mk 2 1 1 [3, 4], Block.mk 2 1 1 [5, 6]].map
            Block.data).flatten⟩ ∧
    stitchFinalize [] = StitchResult.nothingToSave :=
  claim7_stitch [Block.mk 2 1 1 [1, 2], Block.mk 2 1 1 [3, 4], Block.mk 2 1 1 [5, 6]] 1 1
    (by decide) (by decide)

/-- Claim C9: in the blockscan pipeline, every completed frame declared at
most 8 bits deep whose element count equals `height*width*channels` is
accepted — `extract_block` applies no channel-count or bit-depth policy
check — and is appended to the stitch sequence with its pixel data
unchanged: no rescale is applied to 8-bit data. -/
theorem claim9_block_unchanged (f : Frame) (acc : List Block)
    (hbd : f.bitDepth ≤ 8)
    (hsize : f.data.length = f.height * f.width * f.channels) :
    processCompletedBlock acc f =
      Except.ok (acc ++
        [Block.mk f.height f.width (if f.channels > 1 then f.channels else 1) f.data]) := by
  have h8 : ¬ (f.bitDepth > 8) := by omega
  unfold processCompletedBlock extract_block
  simp [h8, hsize]

/-- Witness for claim C9: a 2x2 single-channel 8-bit frame is accepted and
appended with its four bytes untouched. -/
theorem claim9_block_unchanged_witness :
    processCompletedBlock [] (Frame.mk 2 2 1 8 [9, 8, 7, 6]) =
      Except.ok ([] ++ [Block.mk 2 2 (if (1 : Nat) > 1 then 1 else 1) [9, 8, 7, 6]]) :=
  claim9_block_unchanged (Frame.mk 2 2 1 8 [9, 8, 7, 6]) [] (by decide) (by decide)

theorem captureLoop_spec (stopFlag waitOk : Nat → Bool) :
    ∀ (fuel T k : Nat), stopFlag (k + T) = true → T < fuel →
    (captureLoop stopFlag waitOk fuel k).2.2 = 1 ∧
    (captureLoop stopFlag waitOk fuel k).1 ≤ T ∧
    (∀ j < (captureLoop stopFlag waitOk fuel k).1, stopFlag (k + j) = false) ∧
    (captureLoop stopFlag waitOk fuel k).2.1 =
      countValidFrom waitOk k (captureLoop stopFlag waitOk fuel k).1
  | 0, T, k, hT, hf => absurd hf (by omega)
  | fuel + 1, T, k, hT, hf => by
    by_cases hk : stopFlag k = true
    · simp [captureLoop, hk, countValidFrom]
    · have hkf : stopFlag k = false := by
        cases h : stopFlag k
        · rfl
        · exact absurd h hk
      have hTpos : T ≠ 0 := by
        intro h0
        rw [h0, Nat.add_zero] at hT
        exact hk hT
      obtain ⟨T', rfl⟩ : ∃ T', T = T' + 1 := ⟨T - 1, by omega⟩
      have hT' : stopFlag ((k + 1) + T') = true := by
        have : (k + 1) + T' = k + (T' + 1) := by omega
        rw [this]
        exact hT
      have ih := captureLoop_spec stopFlag waitOk fuel T' (k + 1) hT' (by omega)
      simp only [captureLoop, hkf, Bool.false_eq_true, if_false]
      refine ⟨ih.1, by omega, ?_, ?_⟩
      · intro j hj
        cases j with
        | zero => simpa using hkf
        | succ j' =>
          have : k + (j' + 1) = (k + 1) + j' := by omega
          rw [this]
          exact ih.2.2.1 j' (by omega)
      · rw [countValidFrom, ih.2.2.2]
        omega

/-- Claim C8: in the stop-guarded acquisition loops, a wait timeout is not
an error — the iteration returns to the guard and only a valid wait result
is processed — so once the stop flag is set at guard index `T` (one guard
evaluation per wait-timeout interval), the run finalizes the sink exactly
once, performs at most `T` wait calls (none begins once the flag is set:
every wait call happened at a guard index where the flag read false), and
the processed-frame count is exactly the number of valid wait results
among the performed wait calls. -/
theorem claim8_stop_responsive (stopFlag waitOk : Nat → Bool) (T fuel : Nat)
    (hT : stopFlag T = true) (hfuel : T < fuel) :
    (captureLoop stopFlag waitOk fuel 0).2.2 = 1 ∧
    (captureLoop stopFlag waitOk fuel 0).1 ≤ T ∧
    (∀ j < (captureLoop stopFlag waitOk fuel 0).1, stopFlag j = false) ∧
    (captureLoop stopFlag waitOk fuel 0).2.1 =
      countValidFrom waitOk 0 (captureLoop stopFlag waitOk fuel 0).1 := by
  have h := captureLoop_spec stopFlag waitOk fuel T 0 (by simpa using hT) hfuel
  simpa using h

/-- Witness for claim C8: the stop flag becomes set at guard index 2 and
the waits alternate between valid and timed out. -/
theorem claim8_stop_responsive_witness :
    (captureLoop (fun t => decide (2 ≤ t)) (fun t => t % 2 == 0) 5 0).2.2 = 1 ∧
    (captureLoop (fun t => decide (2 ≤ t)) (fun t => t % 2 == 0) 5 0).1 ≤ 2 ∧
    (∀ j < (captureLoop (fun t => decide (2 ≤ t)) (fun t => t % 2 == 0) 5 0).1,
      (fun t => decide (2 ≤ t)) j = false) ∧
    (captureLoop (fun t => decide (2 ≤ t)) (fun t => t % 2 == 0) 5 0).2.1 =
      countValidFrom (fun t => t % 2 == 0) 0
        (captureLoop (fun t => decide (2 ≤ t)) (fun t => t % 2 == 0) 5 0).1 :=
  claim8_stop_responsive (fun t => decide (2 ≤ t)) (fun t => t % 2 == 0) 2 5
    (by decide) (by decide)

theorem stop_recording_eq (s t : Nat) : stop_recording s t = decide (s ≤ t) := by
  unfold stop_recording flagAt programWrites
  by_cases h : s ≤ t <;> simp [h]

/-- Claim C10: the stop flag is monotone.  The only write the program ever
performs on it is the single `true` stored by the user-input thread at
some time `s`; before that the flag reads `false`, no operation resets it,
every guard evaluation at or after `s` observes `true`, and consequently
the acquisition loop begins no wait iteration once the flag is set: all
its wait calls happen at guard indices where the flag read `false`, and
there are at most `s` of them. -/
theorem claim10_flag_monotone (s : Nat) :
    (∀ t, t < s → stop_recording s t = false) ∧
    (∀ t u, t ≤ u → stop_recording s t = true → stop_recording s u = true) ∧
    (∀ t, s ≤ t → stop_recording s t = true) ∧
    (∀ waitOk : Nat → Bool, ∀ fuel, s < fuel →
      (captureLoop (stop_recording s) waitOk fuel 0).1 ≤ s ∧
      ∀ j < (captureLoop (stop_recording s) waitOk fuel 0).1,
        stop_recording s j = false) := by
  refine ⟨?_, ?_, ?_, ?_⟩
  · intro t ht
    rw [stop_recording_eq]
    simp
    omega
  · intro t u htu ht
    rw [stop_recording_eq] at ht ⊢
    simp only [decide_eq_true_eq] at ht ⊢
    omega
  · intro t hst
    rw [stop_recording_eq]
    simpa using hst
  · intro waitOk fuel hfuel
    have hs : stop_recording s (0 + s) = true := by
      rw [stop_recording_eq]
      simp
    have h := captureLoop_spec (stop_recording s) waitOk fuel s 0 hs hfuel
    exact ⟨h.2.1, by simpa using h.2.2.1⟩
